import Mathlib

/-
  Verification of the Puppeteer-based dynamic API relay server.

  The repository consists of near-duplicate revisions of one procedure,
  `relayRequestWithPuppeteer(path, method, body)`, which launches a headless
  browser, navigates it to the upstream origin to solve a browser-verification
  challenge, optionally scrapes a CSRF token for state-changing requests, and
  then issues the real API call as an in-page `fetch`, normalising the
  response into `{status, data}`.

  We shallowly embed the three revisions the claims cite:
    * `apiRelay`     — src/api/index.js, first revision (the elaborate one
                       with `stateChangingMethods`, `waitForSelector` token
                       scraping that throws on failure, and the in-page
                       `headers = token` assignment);
    * `serverV1Relay`— src/server.js, first revision (no token handling);
    * `part000Relay` — src/unnamed/part_000 (POST-only token scraping with
                       meta-tag → hidden-input fallback and `body._token`
                       injection).

  The environment `Env` models the outside world one orchestration run can
  observe: whether the browser launches, whether navigation settles, what the
  settled page exposes (meta tag, hidden input, cookies), and what the
  in-page fetch returns.  Each embedded relay returns the `RelayResult` the
  JS function would return together with a `Trace` recording the
  resource-lifecycle events (browser created/closed, navigation attempted,
  token extraction attempted, the fetch request issued, if any).
-/

namespace RelayServer

/-- JSON values, as produced by `JSON.parse` / consumed by `JSON.stringify`.
Numbers are modelled on the integer fragment (the repository's own payloads
and the spec's examples only use integers). -/
inductive Json where
  | null : Json
  | bool : Bool → Json
  | num : Int → Json
  | str : String → Json
  | arr : List Json → Json
  | obj : List (String × Json) → Json
deriving Repr

/-- A JavaScript object value: ordered fields, as an association list. -/
abbrev Obj := List (String × Json)

/-- JS property assignment `m[k] = v`: replaces the first binding of `k`,
or appends a new one. -/
def setProp : Obj → String → Json → Obj
  | [], k, v => [(k, v)]
  | (k', v') :: rest, k, v =>
    if k' = k then (k, v) :: rest else (k', v') :: setProp rest k v

/-- JS truthiness of a nullable string (`null`, `undefined` and `""` are
falsy; every other string is truthy). -/
def jsTruthy : Option String → Bool
  | none => false
  | some s => !s.isEmpty

/-- `body && Object.keys(body).length > 0`: the body is a non-null object
with at least one key. -/
def bodyNonempty : Option Obj → Bool
  | none => false
  | some m => !m.isEmpty

/-! ### A model of `JSON.parse`

The in-page code reads the upstream response as text and attempts
`JSON.parse`, falling back to the raw text.  We model the parser on the
fragment {null, booleans, integers, strings with simple escapes, arrays,
objects}; fuel bounds the recursion (each nesting level consumes input, so
`length + 1` fuel suffices for any input the fragment accepts). -/

/-- Whitespace recognised by the JSON grammar. -/
def isJsonWs (c : Char) : Bool := c = ' ' || c = '\n' || c = '\t' || c = '\r'

/-- Drop leading JSON whitespace. -/
def skipWs : List Char → List Char
  | [] => []
  | c :: cs => if isJsonWs c then skipWs cs else c :: cs

/-- Parse the characters of a JSON string after the opening quote, handling
the simple escapes; returns the decoded characters and the rest. -/
def parseStrChars : List Char → Option (List Char × List Char)
  | [] => none
  | '"' :: rest => some ([], rest)
  | '\\' :: e :: rest =>
    let dec : Option Char :=
      if e = '"' then some '"'
      else if e = '\\' then some '\\'
      else if e = '/' then some '/'
      else if e = 'n' then some '\n'
      else if e = 't' then some '\t'
      else if e = 'r' then some '\r'
      else none
    match dec with
    | none => none
    | some c => (parseStrChars rest).map (fun p => (c :: p.1, p.2))
  | c :: rest => (parseStrChars rest).map (fun p => (c :: p.1, p.2))

/-- Take a maximal run of decimal digits. -/
def takeDigits : List Char → (List Char × List Char)
  | [] => ([], [])
  | c :: cs =>
    if c.isDigit then
      let p := takeDigits cs
      (c :: p.1, p.2)
    else ([], c :: cs)

/-- Decimal value of a digit run. -/
def digitsToNat (ds : List Char) : Nat :=
  ds.foldl (fun acc c => acc * 10 + (c.toNat - 48)) 0

/-- Parse an integer JSON number (fractions and exponents are outside the
modelled fragment). -/
def parseNum (s : List Char) : Option (Json × List Char) :=
  let p := match s with
    | '-' :: rest => (true, rest)
    | _ => (false, s)
  let q := takeDigits p.2
  if q.1.isEmpty then none
  else
    match q.2 with
    | '.' :: _ => none
    | 'e' :: _ => none
    | 'E' :: _ => none
    | _ =>
      let n : Int := Int.ofNat (digitsToNat q.1)
      some (.num (if p.1 then -n else n), q.2)

mutual

/-- Parse one JSON value. -/
def parseVal : Nat → List Char → Option (Json × List Char)
  | 0, _ => none
  | fuel + 1, s =>
    match skipWs s with
    | 'n' :: 'u' :: 'l' :: 'l' :: rest => some (.null, rest)
    | 't' :: 'r' :: 'u' :: 'e' :: rest => some (.bool true, rest)
    | 'f' :: 'a' :: 'l' :: 's' :: 'e' :: rest => some (.bool false, rest)
    | '"' :: rest => (parseStrChars rest).map (fun p => (.str (String.mk p.1), p.2))
    | '[' :: rest => parseArr fuel (skipWs rest)
    | '{' :: rest => parseObj fuel (skipWs rest)
    | s' => parseNum s'

/-- Parse the inside of an array, after `[` and leading whitespace. -/
def parseArr : Nat → List Char → Option (Json × List Char)
  | 0, _ => none
  | fuel + 1, s =>
    match s with
    | ']' :: rest => some (.arr [], rest)
    | s' =>
      match parseVal fuel s' with
      | none => none
      | some (v, r) =>
        match parseArrTail fuel (skipWs r) with
        | none => none
        | some (vs, r2) => some (.arr (v :: vs), r2)

/-- Parse `, value`* `]` after the first array element. -/
def parseArrTail : Nat → List Char → Option (List Json × List Char)
  | 0, _ => none
  | fuel + 1, s =>
    match s with
    | ']' :: rest => some ([], rest)
    | ',' :: rest =>
      match parseVal fuel rest with
      | none => none
      | some (v, r) =>
        match parseArrTail fuel (skipWs r) with
        | none => none
        | some (vs, r2) => some (v :: vs, r2)
    | _ => none

/-- Parse the inside of an object, after `{` and leading whitespace. -/
def parseObj : Nat → List Char → Option (Json × List Char)
  | 0, _ => none
  | fuel + 1, s =>
    match s with
    | '}' :: rest => some (.obj [], rest)
    | s' =>
      match parseMember fuel s' with
      | none => none
      | some (kv, r) =>
        match parseObjTail fuel (skipWs r) with
        | none => none
        | some (kvs, r2) => some (.obj (kv :: kvs), r2)

/-- Parse one `"key": value` member. -/
def parseMember : Nat → List Char → Option ((String × Json) × List Char)
  | 0, _ => none
  | fuel + 1, s =>
    match skipWs s with
    | '"' :: rest =>
      match parseStrChars rest with
      | none => none
      | some (kcs, r) =>
        match skipWs r with
        | ':' :: r2 =>
          match parseVal fuel r2 with
          | none => none
          | some (v, r3) => some ((String.mk kcs, v), r3)
        | _ => none
    | _ => none

/-- Parse `, member`* `}` after the first object member. -/
def parseObjTail : Nat → List Char → Option (List (String × Json) × List Char)
  | 0, _ => none
  | fuel + 1, s =>
    match s with
    | '}' :: rest => some ([], rest)
    | ',' :: rest =>
      match parseMember fuel rest with
      | none => none
      | some (kv, r) =>
        match parseObjTail fuel (skipWs r) with
        | none => none
        | some (kvs, r2) => some (kv :: kvs, r2)
    | _ => none

end

/-- Model of `JSON.parse`: `some v` when the whole text is a value of the
modelled fragment, `none` when parsing fails. -/
def jsonParse (s : String) : Option Json :=
  match parseVal (s.length + 1) s.data with
  | none => none
  | some (v, rest) => if (skipWs rest).isEmpty then some v else none

/-- `try { JSON.parse(t) } catch { t }`: the parsed value, or the raw text
when parsing fails. -/
def parseOrRaw (t : String) : Json :=
  match jsonParse t with
  | some v => v
  | none => .str t

/-! ### The world one orchestration run observes -/

/-- Environment of one orchestration run: everything the outside world
(browser engine, network, upstream origin) decides.

* `launch`  — `puppeteer.launch`: `.ok ()` succeeds, `.error msg` throws;
* `nav`     — `page.goto(baseApiUrl, ...)`: `.ok ()` settles, `.error msg`
  rejects (timeout / navigation error);
* `metaTag` — the settled page's `meta[name="csrf-token"]` element: `none`
  when absent, `some c` when present with content attribute `c`
  (`c = none` models a missing/null attribute);
* `inputField` — the page's `input[name="_token"]` element: `none` when
  absent, `some v` when present with value `v`;
* `cookieToken` — a token-bearing cookie in the browser's cookie store
  (no revision of the code ever reads it; it is here so that claims about
  a cookie fallback can be stated);
* `fetch`   — the in-page `fetch` of the target URL: `.ok (status, text)`
  resolves with that status and body text, `.error msg` throws. -/
structure Env where
  launch : Except String Unit
  nav : Except String Unit
  metaTag : Option (Option String)
  inputField : Option String
  cookieToken : Option String
  fetch : Except String (Nat × String)

/-- The outgoing in-page fetch request: URL, method, headers, and the body
object attached (if any) before `JSON.stringify`. -/
structure FetchRequest where
  url : String
  method : String
  headers : List (String × String)
  body : Option Obj
deriving Repr

/-- Result returned by `relayRequestWithPuppeteer`: HTTP status plus payload. -/
structure RelayResult where
  status : Nat
  data : Json
deriving Repr

/-- Resource-lifecycle events of one orchestration run:
`browserCreated` — `puppeteer.launch` returned an instance;
`browserClosed` — number of `browser.close()` calls;
`navAttempted` — `page.goto` of the origin was invoked;
`extractAttempted` — the CSRF-token extraction step was entered;
`fetchIssued` — the in-page `fetch(url, options)` call, when one was made. -/
structure Trace where
  browserCreated : Bool
  browserClosed : Nat
  navAttempted : Bool
  extractAttempted : Bool
  fetchIssued : Option FetchRequest
deriving Repr

/-- The upstream origin, `const baseApiUrl = 'https://ssr-system.ct.ws'`. -/
def baseApiUrl : String := "https://ssr-system.ct.ws"

/-- `{ status: 502, data: { error: true, message: `Proxy error: ...` } }`,
the orchestrator-level catch-all result. -/
def proxy502 (msg : String) : RelayResult :=
  { status := 502
    data := .obj [("error", .bool true), ("message", .str ("Proxy error: " ++ msg))] }

/-! ### src/server.js (first revision) and src/unnamed/part_000 —
the shared in-page fetch evaluate -/

/-- `['POST', 'PUT', 'PATCH']`, the body-carrying set checked inside the
in-page evaluate of src/server.js and src/unnamed/part_000. -/
def bodyMethods : List String := ["POST", "PUT", "PATCH"]

/-- The in-page evaluate shared verbatim by src/server.js (lines 52–87) and
src/unnamed/part_000 (lines 44–65): build JSON content-type/accept headers,
attach the body only when non-empty and the method carries a body, `fetch`,
read the response as text, `JSON.parse` with raw-text fallback; any thrown
error is caught and returned as `{status: 500, data: {message: ...}}`.
Returns the result together with the fetch request issued. -/
def inPageFetch (world : Except String (Nat × String)) (url method : String)
    (body : Option Obj) : RelayResult × Option FetchRequest :=
  let headers := [("Content-Type", "application/json"), ("Accept", "application/json")]
  let reqBody := if bodyNonempty body && bodyMethods.contains method then body else none
  let fr : FetchRequest := { url := url, method := method, headers := headers, body := reqBody }
  match world with
  | .error msg =>
    ({ status := 500, data := .obj [("message", .str msg)] }, some fr)
  | .ok (st, txt) =>
    ({ status := st, data := parseOrRaw txt }, some fr)

/-- src/server.js, first revision (lines 27–101): launch, navigate (a goto
rejection propagates straight to the outer catch), run the in-page fetch,
and in `finally` close the browser when one was created. -/
def serverV1Relay (env : Env) (path method : String) (body : Option Obj) :
    RelayResult × Trace :=
  match env.launch with
  | .error msg =>
    (proxy502 msg,
     { browserCreated := false, browserClosed := 0, navAttempted := false,
       extractAttempted := false, fetchIssued := none })
  | .ok _ =>
    match env.nav with
    | .error msg =>
      (proxy502 msg,
       { browserCreated := true, browserClosed := 1, navAttempted := true,
         extractAttempted := false, fetchIssued := none })
    | .ok _ =>
      let r := inPageFetch env.fetch (baseApiUrl ++ "/api/" ++ path) method body
      (r.1,
       { browserCreated := true, browserClosed := 1, navAttempted := true,
         extractAttempted := false, fetchIssued := r.2 })

/-! ### src/unnamed/part_000 -/

/-- src/unnamed/part_000 lines 28–34, the token-scraping evaluate: return
the meta tag's content attribute whenever the tag is present (even when the
attribute is null), else the hidden input's value whenever that element is
present, else null. -/
def part000PageTokenScrape (metaTag : Option (Option String))
    (inputField : Option String) : Option String :=
  match metaTag with
  | some content => content
  | none =>
    match inputField with
    | some v => some v
    | none => none

/-- src/unnamed/part_000 lines 7–76: launch, navigate, then — for POST
only — scrape a CSRF token and, when one was found, run `body._token =
csrfToken` (a TypeError when `body` is null, caught by the outer catch as a
502; an overwrite of any existing `_token` field otherwise), then the
shared in-page fetch; `finally` closes the browser. -/
def part000Relay (env : Env) (path method : String) (body : Option Obj) :
    RelayResult × Trace :=
  match env.launch with
  | .error msg =>
    (proxy502 msg,
     { browserCreated := false, browserClosed := 0, navAttempted := false,
       extractAttempted := false, fetchIssued := none })
  | .ok _ =>
    match env.nav with
    | .error msg =>
      (proxy502 msg,
       { browserCreated := true, browserClosed := 1, navAttempted := true,
         extractAttempted := false, fetchIssued := none })
    | .ok _ =>
      if method = "POST" then
        let tok := part000PageTokenScrape env.metaTag env.inputField
        if jsTruthy tok then
          match body with
          | none =>
            -- `body._token = csrfToken` on a null body throws, and the
            -- outer catch wraps the TypeError's message
            (proxy502 "Cannot set properties of null (setting '_token')",
             { browserCreated := true, browserClosed := 1, navAttempted := true,
               extractAttempted := true, fetchIssued := none })
          | some m =>
            let body' := some (setProp m "_token" (.str (tok.getD "")))
            let r := inPageFetch env.fetch (baseApiUrl ++ "/api/" ++ path) method body'
            (r.1,
             { browserCreated := true, browserClosed := 1, navAttempted := true,
               extractAttempted := true, fetchIssued := r.2 })
        else
          let r := inPageFetch env.fetch (baseApiUrl ++ "/api/" ++ path) method body
          (r.1,
           { browserCreated := true, browserClosed := 1, navAttempted := true,
             extractAttempted := true, fetchIssued := r.2 })
      else
        let r := inPageFetch env.fetch (baseApiUrl ++ "/api/" ++ path) method body
        (r.1,
         { browserCreated := true, browserClosed := 1, navAttempted := true,
           extractAttempted := false, fetchIssued := r.2 })

/-! ### src/api/index.js (first revision) -/

/-- `const stateChangingMethods = ['POST', 'PUT', 'DELETE', 'PATCH']`
(src/api/index.js line 26). -/
def stateChangingMethods : List String := ["POST", "PUT", "DELETE", "PATCH"]

/-- src/api/index.js lines 101–138, the in-page evaluate: build JSON +
`X-Requested-With` headers; then `if (token) headers = token` — an
assignment to the `const headers` binding, which throws a TypeError that
the evaluate's own catch converts to a 500 before `fetch` is ever called.
With no token, attach the body only when non-empty and the method is in
`stateChangingMethods`, `fetch`, and normalise text/JSON as usual; a thrown
fetch is caught as `{status: 500, data: {message: 'page.evaluate() fetch
failed: ...'}}`. -/
def apiEvaluateFetch (world : Except String (Nat × String)) (url method : String)
    (body : Option Obj) (token : Option String) : RelayResult × Option FetchRequest :=
  if jsTruthy token then
    ({ status := 500
       data := .obj [("message",
         .str "page.evaluate() fetch failed: Assignment to constant variable.")] },
     none)
  else
    let headers := [("Content-Type", "application/json"),
      ("Accept", "application/json"), ("X-Requested-With", "XMLHttpRequest")]
    let reqBody := if bodyNonempty body && stateChangingMethods.contains method then body else none
    let fr : FetchRequest := { url := url, method := method, headers := headers, body := reqBody }
    match world with
    | .error msg =>
      ({ status := 500
         data := .obj [("message", .str ("page.evaluate() fetch failed: " ++ msg))] },
       some fr)
    | .ok (st, txt) =>
      ({ status := st, data := parseOrRaw txt }, some fr)

/-- src/api/index.js lines 23–153: launch; navigate with an inner catch
that rethrows a fixed message; for state-changing methods wait for the
CSRF meta tag and throw `'Could not find the CSRF token meta tag on the
page.'` when the selector times out or the scraped content is falsy; then
the in-page evaluate; the outer catch wraps any thrown message as a 502
`Proxy error`; `finally` closes the browser when one was created. -/
def apiRelay (env : Env) (path method : String) (body : Option Obj) :
    RelayResult × Trace :=
  match env.launch with
  | .error msg =>
    (proxy502 msg,
     { browserCreated := false, browserClosed := 0, navAttempted := false,
       extractAttempted := false, fetchIssued := none })
  | .ok _ =>
    match env.nav with
    | .error _ =>
      -- the inner catch rethrows `Navigation to ${baseApiUrl} timed out or failed.`
      (proxy502 ("Navigation to " ++ baseApiUrl ++ " timed out or failed."),
       { browserCreated := true, browserClosed := 1, navAttempted := true,
         extractAttempted := false, fetchIssued := none })
    | .ok _ =>
      if stateChangingMethods.contains method then
        match env.metaTag with
        | none =>
          -- waitForSelector times out; the token catch rethrows
          (proxy502 "Could not find the CSRF token meta tag on the page.",
           { browserCreated := true, browserClosed := 1, navAttempted := true,
             extractAttempted := true, fetchIssued := none })
        | some content =>
          if jsTruthy content then
            let r := apiEvaluateFetch env.fetch (baseApiUrl ++ "/api/" ++ path) method body content
            (r.1,
             { browserCreated := true, browserClosed := 1, navAttempted := true,
               extractAttempted := true, fetchIssued := r.2 })
          else
            -- tag present but content empty/null: the inner throw is caught
            -- by the token catch and rethrown under the same message
            (proxy502 "Could not find the CSRF token meta tag on the page.",
             { browserCreated := true, browserClosed := 1, navAttempted := true,
               extractAttempted := true, fetchIssued := none })
      else
        let r := apiEvaluateFetch env.fetch (baseApiUrl ++ "/api/" ++ path) method body none
        (r.1,
         { browserCreated := true, browserClosed := 1, navAttempted := true,
           extractAttempted := false, fetchIssued := r.2 })


/-! ## Claims -/

/-- C1: for every orchestration run of each embedded relay revision, the
browser is closed exactly once when an instance was created and never
otherwise, on every exit path (normal completion, upstream error result,
token-extraction failure, navigation timeout, internal exception). -/
theorem relay_closes_browser_exactly_once (env : Env) (p m : String) (b : Option Obj) :
    (apiRelay env p m b).2.browserClosed = ((apiRelay env p m b).2.browserCreated).toNat
  ∧ (serverV1Relay env p m b).2.browserClosed = ((serverV1Relay env p m b).2.browserCreated).toNat
  ∧ (part000Relay env p m b).2.browserClosed = ((part000Relay env p m b).2.browserCreated).toNat := by
  obtain ⟨l, n, mt, inp, ck, f⟩ := env
  refine ⟨?_, ?_, ?_⟩ <;>
    cases l <;> cases n <;>
      simp only [apiRelay, serverV1Relay, part000Relay] <;> (repeat' split) <;> rfl

/-- C2: every exception raised during browser launch, challenge navigation
or token extraction is caught by the orchestrator and converted to
`{status: 502, data: {error: true, message: "Proxy error: ..."}}`; in
particular a launch failure yields that result without invoking navigation,
extraction, or the in-page fetch (shown for all three revisions on launch
failure, for navigation failure, and for the api revision's
token-extraction fault on the mutating method PUT). -/
theorem internal_exceptions_become_502_proxy_errors
    (msg p m : String) (b : Option Obj) (mt : Option (Option String))
    (inp ck : Option String) (f : Except String (Nat × String)) (n : Except String Unit) :
    (apiRelay ⟨.error msg, n, mt, inp, ck, f⟩ p m b
      = ({ status := 502, data := .obj [("error", .bool true),
             ("message", .str ("Proxy error: " ++ msg))] },
         { browserCreated := false, browserClosed := 0, navAttempted := false,
           extractAttempted := false, fetchIssued := none }))
  ∧ (serverV1Relay ⟨.error msg, n, mt, inp, ck, f⟩ p m b
      = ({ status := 502, data := .obj [("error", .bool true),
             ("message", .str ("Proxy error: " ++ msg))] },
         { browserCreated := false, browserClosed := 0, navAttempted := false,
           extractAttempted := false, fetchIssued := none }))
  ∧ (part000Relay ⟨.error msg, n, mt, inp, ck, f⟩ p m b
      = ({ status := 502, data := .obj [("error", .bool true),
             ("message", .str ("Proxy error: " ++ msg))] },
         { browserCreated := false, browserClosed := 0, navAttempted := false,
           extractAttempted := false, fetchIssued := none }))
  ∧ (apiRelay ⟨.ok (), .error msg, mt, inp, ck, f⟩ p m b
      = ({ status := 502, data := .obj [("error", .bool true),
             ("message", .str ("Proxy error: Navigation to " ++ baseApiUrl
               ++ " timed out or failed."))] },
         { browserCreated := true, browserClosed := 1, navAttempted := true,
           extractAttempted := false, fetchIssued := none }))
  ∧ (serverV1Relay ⟨.ok (), .error msg, mt, inp, ck, f⟩ p m b
      = ({ status := 502, data := .obj [("error", .bool true),
             ("message", .str ("Proxy error: " ++ msg))] },
         { browserCreated := true, browserClosed := 1, navAttempted := true,
           extractAttempted := false, fetchIssued := none }))
  ∧ (apiRelay ⟨.ok (), .ok (), none, inp, ck, f⟩ p "PUT" b
      = ({ status := 502, data := .obj [("error", .bool true),
             ("message", .str "Proxy error: Could not find the CSRF token meta tag on the page.")] },
         { browserCreated := true, browserClosed := 1, navAttempted := true,
           extractAttempted := true, fetchIssued := none })) :=
  ⟨rfl, rfl, rfl, rfl, rfl, rfl⟩

/-- C3, counterexample: in the src/api/index.js revision, a POST whose
settled page exposes no token does NOT proceed to the upstream — although
the upstream would answer 419, the relay returns a 502 proxy error and
never issues the in-page fetch, falsifying the claim that a token-less
mutating request surfaces the upstream's status verbatim. -/
theorem apiRelay_tokenless_post_aborts_with_502 :
    apiRelay ⟨.ok (), .ok (), none, none, none,
        .ok (419, "CSRF token mismatch")⟩ "menuitems" "POST" (some [("name", .str "x")])
      = ({ status := 502, data := .obj [("error", .bool true),
             ("message", .str "Proxy error: Could not find the CSRF token meta tag on the page.")] },
         { browserCreated := true, browserClosed := 1, navAttempted := true,
           extractAttempted := true, fetchIssued := none }) := rfl

/-- C3, amended: in the src/unnamed/part_000 revision a request whose
settled page yields no token (any method, in particular the mutating ones)
proceeds token-less to the in-page fetch — the outgoing body is the
caller's, untouched — and the upstream's status is surfaced verbatim; in
the src/api/index.js revision the same situation aborts a POST with a 502
proxy error before any fetch. -/
theorem part000_tokenless_request_surfaces_upstream_status
    (p m t : String) (s : Nat) (b : Option Obj) :
    ((part000Relay ⟨.ok (), .ok (), none, none, none, .ok (s, t)⟩ p m b).1.status = s)
  ∧ ((part000Relay ⟨.ok (), .ok (), none, none, none, .ok (s, t)⟩ p m b).2.fetchIssued
      = some { url := baseApiUrl ++ "/api/" ++ p, method := m,
               headers := [("Content-Type", "application/json"), ("Accept", "application/json")],
               body := if bodyNonempty b && bodyMethods.contains m then b else none })
  ∧ (apiRelay ⟨.ok (), .ok (), none, none, none, .ok (s, t)⟩ p "POST" b
      = ({ status := 502, data := .obj [("error", .bool true),
             ("message", .str "Proxy error: Could not find the CSRF token meta tag on the page.")] },
         { browserCreated := true, browserClosed := 1, navAttempted := true,
           extractAttempted := true, fetchIssued := none })) := by
  refine ⟨?_, ?_, rfl⟩ <;>
    by_cases hm : m = "POST" <;>
      simp [part000Relay, hm, part000PageTokenScrape, jsTruthy, inPageFetch]

/-- C4: a body is attached to the outgoing upstream fetch if and only if
the body is non-empty and the effective method is in the body-carrying set
`['POST', 'PUT', 'PATCH']` — stated as an equation on the issued fetch of
the src/server.js revision for arbitrary method and body, plus the claim's
particular instance that a GET with a (possibly non-empty) body carries no
body upstream, in both the server.js and api/index.js revisions. -/
theorem body_attachment_policy (mt : Option (Option String)) (inp ck : Option String)
    (f : Except String (Nat × String)) (p m : String) (b : Option Obj) :
    ((serverV1Relay ⟨.ok (), .ok (), mt, inp, ck, f⟩ p m b).2.fetchIssued.map FetchRequest.body
      = some (if bodyNonempty b && bodyMethods.contains m then b else none))
  ∧ ((serverV1Relay ⟨.ok (), .ok (), mt, inp, ck, f⟩ p "GET" b).2.fetchIssued.map FetchRequest.body
      = some none)
  ∧ ((apiRelay ⟨.ok (), .ok (), mt, inp, ck, f⟩ p "GET" b).2.fetchIssued.map FetchRequest.body
      = some none) := by
  refine ⟨?_, ?_, ?_⟩ <;> cases f <;>
    simp [serverV1Relay, apiRelay, inPageFetch, apiEvaluateFetch, jsTruthy,
      bodyMethods, stateChangingMethods]

/-- C5: when the in-context fetch itself throws, the executor catches the
exception locally and returns `{status: 500, data: {message: ...}}` — not
the orchestrator's 502 shape — and the exception does not propagate: the
fetch was issued, a well-formed result is returned, and the browser is
still closed (shown for the server.js revision on every method, and for
the api/index.js revision on GET). -/
theorem in_page_fetch_fault_yields_500 (mt : Option (Option String)) (inp ck : Option String)
    (msg p m : String) (b : Option Obj) :
    ((serverV1Relay ⟨.ok (), .ok (), mt, inp, ck, .error msg⟩ p m b).1
      = { status := 500, data := .obj [("message", .str msg)] })
  ∧ ((serverV1Relay ⟨.ok (), .ok (), mt, inp, ck, .error msg⟩ p m b).2.fetchIssued.isSome = true)
  ∧ ((serverV1Relay ⟨.ok (), .ok (), mt, inp, ck, .error msg⟩ p m b).2.browserClosed = 1)
  ∧ ((apiRelay ⟨.ok (), .ok (), mt, inp, ck, .error msg⟩ p "GET" b).1
      = { status := 500, data := .obj [("message",
            .str ("page.evaluate() fetch failed: " ++ msg))] }) :=
  ⟨rfl, rfl, rfl, rfl⟩

/-- C6: the executor reads the upstream body as text and attempts a JSON
parse: the returned data is the parsed value when the text parses, and the
exact raw text otherwise, while the returned status is the upstream's
literal status — stated for arbitrary upstream `(s, t)` through the
server.js revision (all methods) and the api/index.js revision (GET), and
grounded on the spec's two round-trip examples. -/
theorem response_normalization_status_and_parse (mt : Option (Option String))
    (inp ck : Option String) (p m t : String) (s : Nat) (b : Option Obj) :
    ((serverV1Relay ⟨.ok (), .ok (), mt, inp, ck, .ok (s, t)⟩ p m b).1
      = { status := s, data := parseOrRaw t })
  ∧ ((apiRelay ⟨.ok (), .ok (), mt, inp, ck, .ok (s, t)⟩ p "GET" b).1
      = { status := s, data := parseOrRaw t })
  ∧ (parseOrRaw "\x7b\"id\":1,\"name\":\"x\"\x7d"
      = .obj [("id", .num 1), ("name", .str "x")])
  ∧ (parseOrRaw "<html><h1>500 Server Error</h1></html>"
      = .str "<html><h1>500 Server Error</h1></html>") :=
  ⟨rfl, rfl, rfl, rfl⟩

/-- C7: evaluating the api/index.js revision at the failing input — a PUT
whose page exposes the CSRF token "tok123" — shows the `headers = token`
line throwing (assignment to the const `headers` binding) before `fetch`
is called: the run returns the in-page catch's 500, with no fetch issued,
instead of attaching the token under a header scheme.  The part_000
revision conjunct shows what does work there: the fetch targets
`<origin>/api/<path>` with the JSON content-type and accept headers and the
token injected as the `_token` body field — and its header list shows no
forwarded authorization credential (the relay functions never receive the
inbound headers at all). -/
theorem csrf_header_attachment_throws_before_fetch :
    (apiRelay ⟨.ok (), .ok (), some (some "tok123"), none, none, .ok (200, "\x7b\x7d")⟩
        "menuitems/1" "PUT" (some [("name", .str "burger")])
      = ({ status := 500, data := .obj [("message",
            .str "page.evaluate() fetch failed: Assignment to constant variable.")] },
         { browserCreated := true, browserClosed := 1, navAttempted := true,
           extractAttempted := true, fetchIssued := none }))
  ∧ ((part000Relay ⟨.ok (), .ok (), some (some "tok123"), none, none, .ok (200, "\x7b\x7d")⟩
        "menuitems" "POST" (some [("name", .str "burger")])).2.fetchIssued
      = some { url := "https://ssr-system.ct.ws/api/menuitems", method := "POST",
               headers := [("Content-Type", "application/json"), ("Accept", "application/json")],
               body := some [("name", .str "burger"), ("_token", .str "tok123")] }) :=
  ⟨rfl, rfl⟩

/-- C8, counterexample: a POST against a settled page with no meta tag and
no hidden input, but with a token-bearing cookie in the browser's cookie
store: extraction still yields null — the issued fetch carries the
caller's body with no `_token` field — so extraction does not fall back to
the cookie, falsifying "extract returns null only when all three sources
yield nothing". -/
theorem cookie_token_source_ignored :
    ((part000Relay ⟨.ok (), .ok (), none, none, some "cookieTok", .ok (200, "ok")⟩
        "orders" "POST" (some [("qty", .num 1)])).2.extractAttempted = true)
  ∧ ((part000Relay ⟨.ok (), .ok (), none, none, some "cookieTok", .ok (200, "ok")⟩
        "orders" "POST" (some [("qty", .num 1)])).2.fetchIssued
      = some { url := "https://ssr-system.ct.ws/api/orders", method := "POST",
               headers := [("Content-Type", "application/json"), ("Accept", "application/json")],
               body := some [("qty", .num 1)] })
  ∧ (part000PageTokenScrape none none = none) :=
  ⟨rfl, rfl, rfl⟩

/-- C8, amended: token extraction in the part_000 revision consults exactly
two sources in priority order — the meta tag's content attribute whenever
the tag is present (even a null content is returned without falling
through), else the hidden input's value — and never consults a cookie: the
whole relay run is invariant under any change of the cookie store. -/
theorem token_extraction_meta_then_input_no_cookie
    (c i : Option String) (l n : Except String Unit) (mt : Option (Option String))
    (inp ck ck' : Option String) (f : Except String (Nat × String))
    (p m : String) (b : Option Obj) :
    (part000PageTokenScrape (some c) i = c)
  ∧ (part000PageTokenScrape none i = i)
  ∧ (part000Relay ⟨l, n, mt, inp, ck, f⟩ p m b = part000Relay ⟨l, n, mt, inp, ck', f⟩ p m b) := by
  refine ⟨rfl, ?_, ?_⟩
  · cases i <;> rfl
  · rfl

/-- C9, counterexample: in the part_000 revision a PUT — a member of the
claimed mutating set — triggers no token extraction at all (even with both
token sources present on the page), and in the api/index.js revision a
DELETE with no body triggers extraction although the claim restricts
DELETE to with-body; both falsify "extraction occurs iff the method is in
{POST, PUT, PATCH, DELETE-with-body}". -/
theorem extraction_gating_mismatches_mutating_set :
    ((part000Relay ⟨.ok (), .ok (), some (some "tok"), some "tok", some "tok", .ok (200, "ok")⟩
        "menuitems/1" "PUT" (some [("name", .str "x")])).2.extractAttempted = false)
  ∧ ((apiRelay ⟨.ok (), .ok (), some (some "tok"), none, none, .ok (200, "ok")⟩
        "menuitems/1" "DELETE" none).2.extractAttempted = true) :=
  ⟨rfl, rfl⟩

/-- C9, amended: token extraction is attempted in the api/index.js revision
exactly when the method is in `['POST', 'PUT', 'DELETE', 'PATCH']`
(regardless of the body), and in the part_000 revision exactly when the
method is POST. -/
theorem extraction_gating_per_revision (mt : Option (Option String)) (inp ck : Option String)
    (f : Except String (Nat × String)) (p m : String) (b : Option Obj) :
    ((apiRelay ⟨.ok (), .ok (), mt, inp, ck, f⟩ p m b).2.extractAttempted
      = stateChangingMethods.contains m)
  ∧ ((part000Relay ⟨.ok (), .ok (), mt, inp, ck, f⟩ p m b).2.extractAttempted
      = (m == "POST")) := by
  constructor
  · cases hc : stateChangingMethods.contains m <;>
      simp [apiRelay, hc] <;> (repeat' split) <;> simp_all
  · by_cases hm : m = "POST"
    · simp [part000Relay, hm]
      (repeat' split) <;> simp_all
    · simp [part000Relay, hm]

/-- C10: in the part_000 revision (the injection lines are verbatim the
same in server.js's second revision and part_001), a POST with a null body
whose page exposes a token makes `body._token = csrfToken` throw; the
orchestrator's catch converts the TypeError into a 502 proxy-error result
and no fetch is issued upstream; and when a body IS present, the injection
overwrites a caller-supplied `_token` field with the scraped token. -/
theorem post_null_body_injection_502_and_overwrite (p t : String) (s : Nat) :
    (part000Relay ⟨.ok (), .ok (), some (some "tkn"), none, none, .ok (s, t)⟩ p "POST" none
      = ({ status := 502, data := .obj [("error", .bool true),
             ("message", .str "Proxy error: Cannot set properties of null (setting '_token')")] },
         { browserCreated := true, browserClosed := 1, navAttempted := true,
           extractAttempted := true, fetchIssued := none }))
  ∧ ((part000Relay ⟨.ok (), .ok (), some (some "tkn"), none, none, .ok (s, t)⟩ p "POST"
        (some [("qty", .num 2), ("_token", .str "stale")])).2.fetchIssued
      = some { url := baseApiUrl ++ "/api/" ++ p, method := "POST",
               headers := [("Content-Type", "application/json"), ("Accept", "application/json")],
               body := some [("qty", .num 2), ("_token", .str "tkn")] }) :=
  ⟨rfl, rfl⟩

end RelayServer
